import Mathlib

/-!
Verification of the DCF valuation engine (`dcf_calculator.py`) against its
specification.  The Python code is shallowly embedded: spreadsheet cells are
an inductive type, Python floats are modelled by `ℚ`, pandas DataFrames are
lists of lists of cells, and fallible code paths (uncaught exceptions in the
Python) are modelled with `Option`.
-/

set_option autoImplicit false

/-- A spreadsheet cell as seen by pandas: `blank` models NaN / a missing cell
(`pd.isna`), `str` a string cell, `num` an int/float cell (floats are
embedded as rationals). -/
inductive Cell where
  | blank : Cell
  | str (s : String) : Cell
  | num (q : ℚ) : Cell
deriving DecidableEq

/-- Drop leading and trailing whitespace, modelling Python `str.strip()`. -/
def trimChars (l : List Char) : List Char :=
  ((l.dropWhile Char.isWhitespace).reverse.dropWhile Char.isWhitespace).reverse

/-- Cleaning step of `clean_and_convert` line 21: drop every dollar sign and
every comma (single-character `replace`), then strip surrounding whitespace. -/
def cleanChars (s : String) : List Char :=
  trimChars ((s.data.filter (fun c => c ≠ '$')).filter (fun c => c ≠ ','))

/-- Numeric value of a decimal digit character (only consulted on characters
that satisfy `Char.isDigit`). -/
def digitVal (c : Char) : ℕ :=
  if c = '0' then 0 else if c = '1' then 1 else if c = '2' then 2 else if c = '3' then 3
  else if c = '4' then 4 else if c = '5' then 5 else if c = '6' then 6 else if c = '7' then 7
  else if c = '8' then 8 else 9

/-- Read a maximal run of decimal digits: returns the accumulated value, the
number of digits consumed, and the rest of the input. -/
def readDigits : List Char → ℕ → ℕ → ℕ × ℕ × List Char
  | [], acc, n => (acc, n, [])
  | c :: cs, acc, n =>
    if c.isDigit then readDigits cs (10 * acc + digitVal c) (n + 1)
    else (acc, n, c :: cs)

/-- Model of Python `float(s)` on finite decimal literals: optional sign,
digits with an optional decimal point (at least one digit overall), and an
optional decimal exponent; any other input fails.  (The underscore digit
separators and the inf/nan forms accepted by the Python builtin are not
modelled; no cell relevant to the specification uses them.) -/
def pyFloat (l : List Char) : Option ℚ :=
  let signAndRest : Bool × List Char :=
    match l with
    | '-' :: r => (true, r)
    | '+' :: r => (false, r)
    | _ => (false, l)
  let neg := signAndRest.1
  let l1 := signAndRest.2
  let ipRes := readDigits l1 0 0
  let fpRes : ℕ × ℕ × List Char :=
    match ipRes.2.2 with
    | '.' :: r => readDigits r 0 0
    | _ => (0, 0, ipRes.2.2)
  if ipRes.2.1 + fpRes.2.1 = 0 then none
  else
    let mant : ℚ := (ipRes.1 : ℚ) + (fpRes.1 : ℚ) / (10 : ℚ) ^ fpRes.2.1
    let withExp : Option ℚ :=
      match fpRes.2.2 with
      | [] => some mant
      | 'e' :: r =>
        let es : Bool × List Char :=
          match r with
          | '-' :: r2 => (true, r2)
          | '+' :: r2 => (false, r2)
          | _ => (false, r)
        let eRes := readDigits es.2 0 0
        if eRes.2.1 = 0 ∨ eRes.2.2 ≠ [] then none
        else some (if es.1 then mant / (10 : ℚ) ^ eRes.1 else mant * (10 : ℚ) ^ eRes.1)
      | 'E' :: r =>
        let es : Bool × List Char :=
          match r with
          | '-' :: r2 => (true, r2)
          | '+' :: r2 => (false, r2)
          | _ => (false, r)
        let eRes := readDigits es.2 0 0
        if eRes.2.1 = 0 ∨ eRes.2.2 ≠ [] then none
        else some (if es.1 then mant / (10 : ℚ) ^ eRes.1 else mant * (10 : ℚ) ^ eRes.1)
      | _ => none
    withExp.map (fun q => if neg then -q else q)

/-- Lines 14-31 of `clean_and_convert`: the early `return 0.0` paths (NaN,
empty string, unparseable string) are `none`; otherwise the parsed
`numeric_value` is returned together with the percentage flag, which a
trailing percent sign in the cleaned string forces to true, for lines 33-34
to consult. -/
def pre_parse (value : Cell) (is_percentage : Bool) : Option (ℚ × Bool) :=
  match value with
  | Cell.blank => none
  | Cell.num q => some (q, is_percentage)
  | Cell.str s =>
    if s = "" then none
    else
      let cs := cleanChars s
      let pct : Bool := cs.getLast? == some '%'
      let isp := is_percentage || pct
      let cs2 := if pct then cs.filter (fun c => c ≠ '%') else cs
      (pyFloat cs2).map (fun q => (q, isp))

/-- Model of `clean_and_convert` from `dcf_calculator.py`, lines 9-36: the early
`return 0.0` paths yield `0`, then the percentage heuristic of lines 33-34
divides by 100 exactly when the flag is set and the signed parsed value
exceeds 1. -/
def clean_and_convert (value : Cell) (is_percentage : Bool) : ℚ :=
  match pre_parse value is_percentage with
  | none => 0
  | some (q, isp) => if isp = true ∧ 1 < q then q / 100 else q

/-! Workbook model and loader: `DCFModel._load_data`, lines 54-120. -/

/-- A pandas sheet: rows of cells.  Cells outside the stored rows read as
blank (pandas pads the used range with NaN). -/
abbrev Sheet := List (List Cell)

/-- Positional cell access, `df.iloc[r, c]`, with missing cells read as NaN. -/
def cellAt (sh : Sheet) (r c : ℕ) : Cell :=
  (sh.getD r []).getD c Cell.blank

/-- The Excel workbook handed to `pd.ExcelFile`: named sheets. -/
structure Workbook where
  sheets : List (String × Sheet)

/-- Sheet lookup performed by `xl.parse`: a missing sheet raises, which the
loader catches and turns into `None`, modelled as `none`. -/
def lookupSheet (wb : Workbook) (name : String) : Option Sheet :=
  (wb.sheets.find? (fun p => p.1 == name)).map Prod.snd

/-- ASCII model of Python `str.lower()`. -/
def asciiLower (c : Char) : Char :=
  if c = 'A' then 'a' else if c = 'B' then 'b' else if c = 'C' then 'c' else if c = 'D' then 'd'
  else if c = 'E' then 'e' else if c = 'F' then 'f' else if c = 'G' then 'g'
  else if c = 'H' then 'h' else if c = 'I' then 'i' else if c = 'J' then 'j'
  else if c = 'K' then 'k' else if c = 'L' then 'l' else if c = 'M' then 'm'
  else if c = 'N' then 'n' else if c = 'O' then 'o' else if c = 'P' then 'p'
  else if c = 'Q' then 'q' else if c = 'R' then 'r' else if c = 'S' then 's'
  else if c = 'T' then 't' else if c = 'U' then 'u' else if c = 'V' then 'v'
  else if c = 'W' then 'w' else if c = 'X' then 'x' else if c = 'Y' then 'y'
  else if c = 'Z' then 'z' else c

/-- Conversion of an index cell to a string, as the loader does with
`fillna` followed by `astype`: NaN becomes the empty string; numeric labels
are rendered (their exact rendering is irrelevant: every label looked up is
alphabetic). -/
def cellToStr : Cell → String
  | Cell.blank => ""
  | Cell.str s => s
  | Cell.num q => toString q

/-- Index normalisation of line 72: strip, lowercase, and replace each
space with an underscore. -/
def normLabel (c : Cell) : List Char :=
  (trimChars (cellToStr c).data).map (fun ch => asciiLower ch) |>.map
    (fun ch => if ch = ' ' then '_' else ch)

/-- Row index of the first row of `Hipotesis_Base` whose normalised label
matches; `df_base.loc[label]` raises `KeyError` when there is none.  (The
workbook schema has one row per label; duplicate labels are not modelled.) -/
def findLabelRow (sh : Sheet) (label : String) : Option ℕ :=
  (List.range sh.length).find? (fun r => normLabel (cellAt sh r 0) == label.data)

/-- Model of the helper `get_base_value`, lines 75-78: the value sits in the
second physical column, the first data column of the label-indexed row. -/
def get_base_value (hip : Sheet) (label : String) (isp : Bool) : Option ℚ :=
  (findLabelRow hip label).map (fun r => clean_and_convert (cellAt hip r 1) isp)

/-- The `base_vars` dictionary built by `_load_data` (lines 81-92). -/
structure BaseVars where
  Ingresos_Totales_2025 : ℚ
  Gastos_Fijos_Operativos_2025 : ℚ
  Dias_CxC : ℚ
  Dias_Inv : ℚ
  Dias_CxP : ℚ
  WACC : ℚ
  G_Perpetuidad : ℚ
  Tasa_ISR : ℚ
  Dep_Pct_Base : ℚ
  CapEx_Pct_Base : ℚ
deriving DecidableEq

/-- The `project_data` dictionary (lines 103-108): four five-year sequences
read from columns 3..7 of the `Impacto_Proyectos` grid. -/
structure ProjectData where
  capex_inversion : List ℚ
  ingresos_adicionales : List ℚ
  gastos_ahorros_operativos : List ℚ
  depreciacion_adicional : List ℚ
deriving DecidableEq

/-- The dictionary returned by a successful `_load_data` (line 111). -/
structure LoadedData where
  base : BaseVars
  proyecciones : Sheet
  proyectos : ProjectData

/-- Model of `DCFModel._load_data`, lines 54-120.  The Hipotesis_Base sheet
is parsed label-indexed with no header, so its data sit in physical
column 1; Proyecciones_Detalladas is parsed with a header row and then
re-indexed on its first column, so `iloc` position `(r, c)` of the resulting
frame is physical cell `(r+1, c+1)`; Impacto_Proyectos is parsed skipping
two rows.  Any missing sheet or missing label raises KeyError, which is
caught at lines 113-120 — these print a diagnostic naming the missing key to
the console — and the function returns `None`, modelled as `none`.  The
sequential matches mirror the sequential evaluation order of the source;
every failure collapses to the same `none`. -/
def load_data (wb : Workbook) : Option LoadedData :=
  match lookupSheet wb "Hipotesis_Base" with
  | none => none
  | some hip =>
    match get_base_value hip "ingresos_totales_2025" false,
          get_base_value hip "gastos_fijos_operativos_2025" false,
          get_base_value hip "dias_cxc" false,
          get_base_value hip "dias_inv" false,
          get_base_value hip "dias_cxp" false with
    | some v_ingresos, some v_gastos_fijos, some v_dias_cxc, some v_dias_inv, some v_dias_cxp =>
      match get_base_value hip "wacc" true,
            get_base_value hip "g-tasa_de_crecimiento_a_perpetuidad" true,
            get_base_value hip "tasa_isr" true,
            get_base_value hip "dep_pct_base" true,
            get_base_value hip "capex_pct_base" true with
      | some v_wacc, some v_g, some v_isr, some v_dep, some v_capex =>
        match lookupSheet wb "Proyecciones_Detalladas", lookupSheet wb "Impacto_Proyectos" with
        | some det, some imp =>
          let impData := imp.drop 2
          let impRow := fun (r : ℕ) =>
            (List.range 5).map (fun i => clean_and_convert (cellAt impData r (3 + i)) false)
          some ⟨⟨v_ingresos, v_gastos_fijos, v_dias_cxc, v_dias_inv, v_dias_cxp,
                 v_wacc, v_g, v_isr, v_dep, v_capex⟩,
                (det.drop 1).map (fun row => row.drop 1),
                ⟨impRow 0, impRow 4, impRow 8, impRow 12⟩⟩
        | _, _ => none
      | _, _, _, _, _ => none
    | _, _, _, _, _ => none

/-! Projection engine: `DCFModel._calculate_projection`, lines 122-261. -/

/-- One row of the projection DataFrame `df_proj`.  The fields
`totalCostoVenta` and `gastosFijos` record the loop-local values
`total_costo_venta` and `gastos_fijos_actual` of the source (they are not
DataFrame columns, but the specification constrains them). -/
structure YearRow where
  Ingresos_B1 : ℚ
  Ingresos_B2 : ℚ
  Ingresos_G : ℚ
  ingresosTotales : ℚ
  totalCostoVenta : ℚ
  gastosFijos : ℚ
  EBIT : ℚ
  Depreciacion : ℚ
  NOPAT : ℚ
  capitalDeTrabajo : ℚ
  deltaCTN : ℚ
  capexTotal : ℚ
  FCF : ℚ
deriving DecidableEq

/-- The body of the `for t in proj_years_idx` loop (lines 150-245).  `prev`
is the previously computed row (`df_proj.loc[prev_year_str]`), present
exactly when `t > 1`; `proy` is the loaded `Proyecciones_Detalladas` frame
and `proys` the loaded project-impact lists. -/
def computeYear (base : BaseVars) (proy : Sheet) (proys : ProjectData) (t : ℕ)
    (prev : Option YearRow) : YearRow :=
  let ingreso_1_base_2025 := clean_and_convert (cellAt proy 1 0) false
  let g_ingreso_1 := clean_and_convert (cellAt proy 2 t) true
  let cv_pct_1 := clean_and_convert (cellAt proy 3 t) true
  let ingreso_1_prev := match prev with | some p => p.Ingresos_B1 | none => ingreso_1_base_2025
  let ingreso_1_actual := ingreso_1_prev * (1 + g_ingreso_1)
  let ingreso_2_base_2025 := clean_and_convert (cellAt proy 5 0) false
  let g_ingreso_2 := clean_and_convert (cellAt proy 6 t) true
  let cv_pct_2 := clean_and_convert (cellAt proy 7 t) true
  let ingreso_2_prev := match prev with | some p => p.Ingresos_B2 | none => ingreso_2_base_2025
  let ingreso_2_actual := ingreso_2_prev * (1 + g_ingreso_2)
  let ingreso_G_base_2025 := clean_and_convert (cellAt proy 9 0) false
  let g_ingreso_G := clean_and_convert (cellAt proy 10 t) true
  let cv_pct_G := clean_and_convert (cellAt proy 11 t) true
  let ingreso_G_prev := match prev with | some p => p.Ingresos_G | none => ingreso_G_base_2025
  let ingreso_G_actual := ingreso_G_prev * (1 + g_ingreso_G)
  let total_costo_venta :=
    ingreso_1_actual * cv_pct_1 + ingreso_2_actual * cv_pct_2 + ingreso_G_actual * cv_pct_G
  let total_ingresos_base := ingreso_1_actual + ingreso_2_actual + ingreso_G_actual
  let ingresos_adicionales := proys.ingresos_adicionales.getD (t - 1) 0
  let gastos_ahorros_operativos := proys.gastos_ahorros_operativos.getD (t - 1) 0
  let depreciacion_adicional := proys.depreciacion_adicional.getD (t - 1) 0
  let capex_proyectos := proys.capex_inversion.getD (t - 1) 0
  let g_fijos_inflacion : ℚ := 3 / 100
  let gastos_fijos_actual := base.Gastos_Fijos_Operativos_2025 * (1 + g_fijos_inflacion) ^ t
  let gastos_variables_pct := clean_and_convert (cellAt proy 13 t) true
  let gastos_variables_actual := total_ingresos_base * gastos_variables_pct
  let ingresos_totales := total_ingresos_base + ingresos_adicionales
  let ebit := ingresos_totales - total_costo_venta - gastos_fijos_actual -
    gastos_variables_actual + gastos_ahorros_operativos
  let dep_amort_base := total_ingresos_base * base.Dep_Pct_Base
  let depreciacion := dep_amort_base + depreciacion_adicional
  let nopat := ebit * (1 - base.Tasa_ISR)
  let ck_current := base.Dias_CxC / 365 * ingresos_totales +
    base.Dias_Inv / 365 * total_costo_venta - base.Dias_CxP / 365 * total_costo_venta
  let ck_prev := match prev with | some p => p.capitalDeTrabajo | none => 0
  let capex_base := total_ingresos_base * base.CapEx_Pct_Base
  { Ingresos_B1 := ingreso_1_actual
    Ingresos_B2 := ingreso_2_actual
    Ingresos_G := ingreso_G_actual
    ingresosTotales := ingresos_totales
    totalCostoVenta := total_costo_venta
    gastosFijos := gastos_fijos_actual
    EBIT := ebit
    Depreciacion := depreciacion
    NOPAT := nopat
    capitalDeTrabajo := ck_current
    deltaCTN := ck_current - ck_prev
    capexTotal := capex_base + capex_proyectos
    FCF := nopat + depreciacion - (ck_current - ck_prev) - (capex_base + capex_proyectos) }

/-- The projection row for forecast year index `t` (year `2025 + t`): year 1
starts from the base-year stream levels, later years chain on the stored
previous row, exactly as the loop does. -/
def yearRow (base : BaseVars) (proy : Sheet) (proys : ProjectData) : ℕ → YearRow
  | 0 => computeYear base proy proys 0 none
  | 1 => computeYear base proy proys 1 none
  | t + 2 => computeYear base proy proys (t + 2) (some (yearRow base proy proys (t + 1)))

/-- The completed `self.proyeccion` DataFrame: rows for t = 1..5
(years 2026..2030). -/
def proyeccion (base : BaseVars) (proy : Sheet) (proys : ProjectData) : List YearRow :=
  (List.range 5).map (fun i => yearRow base proy proys (i + 1))

/-- Discount factor of line 252, one over (1 + wacc) to the power t. -/
def vpFactor (wacc : ℚ) (t : ℕ) : ℚ := 1 / (1 + wacc) ^ t

/-- Discounted free cash flow of year t, the column assigned at line 258. -/
def vpFCF (base : BaseVars) (proy : Sheet) (proys : ProjectData) (t : ℕ) : ℚ :=
  (yearRow base proy proys t).FCF * vpFactor base.WACC t

/-- Sum of the discounted-FCF column over the five projected years,
line 289. -/
def vp_fcf_proyectados (base : BaseVars) (proy : Sheet) (proys : ProjectData) : ℚ :=
  ((List.range 5).map (fun i => vpFCF base proy proys (i + 1))).sum

/-! Valuation: `DCFModel._calculate_valuation`, lines 263-303. -/

/-- The `self.valoracion` summary dictionary (lines 294-302). -/
structure Valoracion where
  VE_FCF_Proyectados : ℚ
  Valor_Terminal : ℚ
  VP_Valor_Terminal : ℚ
  Valor_Empresa_VE : ℚ
  WACC : ℚ
  G_Perpetuidad : ℚ
  Tasa_ISR : ℚ
deriving DecidableEq

/-- The summary dictionary as built by `_calculate_valuation` when the
arithmetic goes through: Gordon division at line 283, discounting at
line 286, enterprise value at line 292. -/
def valoracion_result (base : BaseVars) (proy : Sheet) (proys : ProjectData) : Valoracion :=
  let wacc := base.WACC
  let g := base.G_Perpetuidad
  let fcf_n := (yearRow base proy proys 5).FCF
  let vp_factor_n := vpFactor wacc 5
  let fcf_perpetuo := fcf_n * (1 + g)
  let valor_terminal := fcf_perpetuo / (wacc - g)
  let vp_vt := valor_terminal * vp_factor_n
  let vp_fcf := vp_fcf_proyectados base proy proys
  { VE_FCF_Proyectados := vp_fcf
    Valor_Terminal := valor_terminal
    VP_Valor_Terminal := vp_vt
    Valor_Empresa_VE := vp_fcf + vp_vt
    WACC := wacc
    G_Perpetuidad := g
    Tasa_ISR := base.Tasa_ISR }

/-- `DCFModel.run_model` on loaded data: `_calculate_projection` always
succeeds and stores five rows, so `_calculate_valuation` runs next.  The
single `none` branch models the one uncaught Python ZeroDivisionError: at
`wacc = -1` the discount factors of line 252 are computed in pure-Python
float arithmetic and raise, so no result dictionary exists.  The Gordon
division of line 283 never raises: its numerator is a pandas scalar of
numpy float64 type, so at `wacc = g` the division by zero emits a
RuntimeWarning and yields a non-finite float that is still stored in the
returned dictionary.  The rational embedding cannot represent that
non-finite value — the division-by-zero convention of `ℚ` puts `0` in the
`Valor_Terminal` field instead — so the model is faithful about which runs
return a dictionary, and no theorem below relies on the numeric field
values at the single point `wacc = g`. -/
def run_model (base : BaseVars) (proy : Sheet) (proys : ProjectData) : Option Valoracion :=
  if 1 + base.WACC = 0 then none
  else some (valoracion_result base proy proys)

/-! Concrete fixtures used by witnesses and counterexamples. -/

/-- Empty drivers sheet: every cell reads as NaN, so every stream level,
growth rate and ratio normalises to zero. -/
def gridBlank : Sheet := []

/-- Drivers sheet whose only filled cell is the base-year level of revenue
stream 1 (physical row 1, column 0 of the re-indexed frame), set to 100;
all growth rates and ratios read as NaN and normalise to zero. -/
def gridB1 : Sheet := [[], [Cell.num 100]]

/-- Project-impact data with no projects: every list is empty and every
lookup falls back to zero, like a sheet of NaN cells. -/
def proysZero : ProjectData := ⟨[], [], [], []⟩

/-- The projection row produced from `gridB1` under a base whose expense,
tax and working-capital parameters are zero: stream 1 stays at 100 and free
cash flow is 100 every year. -/
def rowB1 : YearRow := ⟨100, 0, 0, 100, 0, 0, 100, 0, 100, 0, 0, 0, 100⟩

/-- The all-zero projection row produced from `gridBlank`. -/
def rowZero : YearRow := ⟨0, 0, 0, 0, 0, 0, 0, 0, 0, 0, 0, 0, 0⟩

/-- Base parameters for witness runs: WACC 20 percent, perpetuity growth
3 percent, and zero expense, tax and working-capital parameters so that the
`gridB1` projection stays at a constant free cash flow of 100. -/
def cBaseC2 : BaseVars := ⟨2000000, 0, 0, 0, 0, 1 / 5, 3 / 100, 0, 0, 0⟩

/-- Base parameters with the discount rate below the perpetuity growth rate:
WACC 5 percent, growth 10 percent. -/
def cBaseC1 : BaseVars := ⟨0, 0, 0, 0, 0, 1 / 20, 1 / 10, 0, 0, 0⟩

/-- Base parameters for the zero-cash-flow run: WACC 10 percent, growth
3 percent, nonzero working-capital days and tax rate (they multiply zero
revenue), zero fixed expenses. -/
def zBase1 : BaseVars := ⟨0, 0, 5, 3, 2, 1 / 10, 3 / 100, 3 / 10, 0, 0⟩

/-- A workbook with no sheets at all: the required sheet is absent. -/
def wbNoSheet : Workbook := ⟨[]⟩

/-- A workbook whose Hipotesis_Base sheet exists but carries none of the
required labels. -/
def wbNoLabel : Workbook :=
  ⟨[("Hipotesis_Base", [[Cell.str "otra_cosa", Cell.num 1]]),
    ("Proyecciones_Detalladas", []),
    ("Impacto_Proyectos", [])]⟩

lemma cellAt_gridB1_one_zero : cellAt gridB1 1 0 = Cell.num 100 := rfl

lemma cellAt_gridB1_big (r c : ℕ) (h : 2 ≤ r) : cellAt gridB1 r c = Cell.blank := by
  match r, h with
  | n + 2, _ => rfl

lemma cellAt_gridBlank (r c : ℕ) : cellAt gridBlank r c = Cell.blank := rfl

lemma getD_nil_q (n : ℕ) : ([] : List ℚ).getD n 0 = 0 := rfl

lemma clean_and_convert_blank (b : Bool) : clean_and_convert Cell.blank b = 0 := rfl

lemma clean_and_convert_hundred : clean_and_convert (Cell.num 100) false = 100 := by
  simp [clean_and_convert, pre_parse]

/-- Evaluation of the projection over `gridB1` and no projects, for a base
whose fixed expenses, receivable days, tax rate, depreciation percentage and
CapEx percentage are zero: every year is `rowB1`. -/
lemma yearRow_gridB1 (base : BaseVars)
    (hGF : base.Gastos_Fijos_Operativos_2025 = 0)
    (hCxC : base.Dias_CxC = 0)
    (hISR : base.Tasa_ISR = 0)
    (hDep : base.Dep_Pct_Base = 0)
    (hCapEx : base.CapEx_Pct_Base = 0) :
    ∀ t, yearRow base gridB1 proysZero t = rowB1
  | 0 => by
    show computeYear base gridB1 proysZero 0 none = rowB1
    simp +decide only [computeYear, cellAt_gridB1_one_zero, cellAt_gridB1_big,
      clean_and_convert_blank, clean_and_convert_hundred, proysZero, getD_nil_q,
      hGF, hCxC, hISR, hDep, hCapEx, rowB1]
    norm_num
  | 1 => by
    show computeYear base gridB1 proysZero 1 none = rowB1
    simp +decide only [computeYear, cellAt_gridB1_one_zero, cellAt_gridB1_big,
      clean_and_convert_blank, clean_and_convert_hundred, proysZero, getD_nil_q,
      hGF, hCxC, hISR, hDep, hCapEx, rowB1]
    norm_num
  | t + 2 => by
    have ih := yearRow_gridB1 base hGF hCxC hISR hDep hCapEx (t + 1)
    show computeYear base gridB1 proysZero (t + 2) (some (yearRow base gridB1 proysZero (t + 1)))
      = rowB1
    rw [ih]
    simp +decide only [computeYear, cellAt_gridB1_one_zero, cellAt_gridB1_big,
      clean_and_convert_blank, clean_and_convert_hundred, proysZero, getD_nil_q,
      hGF, hCxC, hISR, hDep, hCapEx, rowB1]
    norm_num

/-- Evaluation of the projection over the empty drivers sheet and no
projects, for a base with zero fixed expenses: every year is the zero row. -/
lemma yearRow_gridBlank (base : BaseVars)
    (hGF : base.Gastos_Fijos_Operativos_2025 = 0) :
    ∀ t, yearRow base gridBlank proysZero t = rowZero
  | 0 => by
    show computeYear base gridBlank proysZero 0 none = rowZero
    simp +decide only [computeYear, cellAt_gridBlank,
      clean_and_convert_blank, proysZero, getD_nil_q, hGF, rowZero]
    norm_num
  | 1 => by
    show computeYear base gridBlank proysZero 1 none = rowZero
    simp +decide only [computeYear, cellAt_gridBlank,
      clean_and_convert_blank, proysZero, getD_nil_q, hGF, rowZero]
    norm_num
  | t + 2 => by
    have ih := yearRow_gridBlank base hGF (t + 1)
    show computeYear base gridBlank proysZero (t + 2)
      (some (yearRow base gridBlank proysZero (t + 1))) = rowZero
    rw [ih]
    simp +decide only [computeYear, cellAt_gridBlank,
      clean_and_convert_blank, proysZero, getD_nil_q, hGF, rowZero]
    norm_num

/-- The projection loop never reads the discount rate: overwriting `WACC`
leaves every computed row unchanged. -/
lemma yearRow_wacc (base : BaseVars) (w : ℚ) (proy : Sheet) (proys : ProjectData) :
    ∀ t, yearRow { base with WACC := w } proy proys t = yearRow base proy proys t
  | 0 => rfl
  | 1 => rfl
  | t + 2 => by
    have ih := yearRow_wacc base w proy proys (t + 1)
    show computeYear { base with WACC := w } proy proys (t + 2)
        (some (yearRow { base with WACC := w } proy proys (t + 1)))
      = computeYear base proy proys (t + 2) (some (yearRow base proy proys (t + 1)))
    rw [ih]
    exact rfl

/-- Whenever the discount factors exist, that is WACC is not -1,
`run_model` returns the summary dictionary. -/
lemma run_model_some (base : BaseVars) (proy : Sheet) (proys : ProjectData)
    (h1 : 1 + base.WACC ≠ 0) :
    run_model base proy proys = some (valoracion_result base proy proys) := by
  unfold run_model
  rw [if_neg h1]

/-! Claim theorems. -/

/-- C5: the scalar normaliser satisfies all five concrete contract
equalities: "30%" with no hint gives 0.30; "1,234.5" gives 1234.5; the empty
string gives 0; an already-decimal 0.3 with the percentage hint is left
unchanged; and the unparseable "abc" falls back to 0. -/
theorem C5_normalizer_contract :
    clean_and_convert (Cell.str "30%") false = 30 / 100
    ∧ clean_and_convert (Cell.str "1,234.5") false = 12345 / 10
    ∧ clean_and_convert (Cell.str "") false = 0
    ∧ clean_and_convert (Cell.num (3 / 10)) true = 3 / 10
    ∧ clean_and_convert (Cell.str "abc") false = 0 := by
  refine ⟨?_, ?_, ?_, ?_, ?_⟩ <;>
    norm_num +decide [clean_and_convert, pre_parse, cleanChars, trimChars, pyFloat,
      readDigits, digitVal]

/-- C10: the divide-by-100 rule compares the signed parsed value against 1
strictly, so percent strings parsing to at most 1 are returned as-is
("1%" gives 1.0 and "0.5%" gives 0.5) and negative percent strings are never
divided ("-50%" gives -50.0). -/
theorem C10_signed_threshold_examples :
    clean_and_convert (Cell.str "1%") false = 1
    ∧ clean_and_convert (Cell.str "0.5%") false = 1 / 2
    ∧ clean_and_convert (Cell.str "-50%") false = -50 := by
  refine ⟨?_, ?_, ?_⟩ <;>
    norm_num +decide [clean_and_convert, pre_parse, cleanChars, trimChars, pyFloat,
      readDigits, digitVal]

/-- C4 counterexample: "-50%" parses to -50, whose magnitude exceeds 1, yet
`clean_and_convert` returns it undivided — the divide-by-100 rule does not
fire on magnitude as the claim states. -/
theorem C4_counterexample :
    (1 : ℚ) < |(-50 : ℚ)|
    ∧ clean_and_convert (Cell.str "-50%") false = -50
    ∧ clean_and_convert (Cell.str "-50%") false ≠ -50 / 100 := by
  refine ⟨by norm_num, ?_, ?_⟩ <;>
    norm_num +decide [clean_and_convert, pre_parse, cleanChars, trimChars, pyFloat,
      readDigits, digitVal]

/-- C4 (amended): for every input the normaliser interprets, the parsed
value is divided by 100 exactly when the percentage flag is set and the
signed parsed value exceeds 1 — not its magnitude — and is returned
unchanged otherwise; so "30" with the hint and "30%" both give 0.30, an
input already given as 0.30 is untouched, and negative values are never
divided. -/
theorem C4_amended_signed_threshold (v : Cell) (hint : Bool) (q : ℚ) (isp : Bool)
    (h : pre_parse v hint = some (q, isp)) :
    clean_and_convert v hint = if isp = true ∧ 1 < q then q / 100 else q := by
  unfold clean_and_convert
  rw [h]

/-- C4 witness: the amended rule evaluated on "30%". -/
theorem C4_witness :
    clean_and_convert (Cell.str "30%") false
      = if true = true ∧ (1 : ℚ) < 30 then (30 : ℚ) / 100 else 30 :=
  C4_amended_signed_threshold (Cell.str "30%") false 30 true
    (by norm_num +decide [pre_parse, cleanChars, trimChars, pyFloat, readDigits, digitVal])

/-- C6: in every computed projection the working-capital level equals
receivable days over 365 times total revenue, plus inventory days over 365
times cost of sales, minus payable days over 365 times cost of sales; the
first-year delta equals the full level (prior taken as 0) and every later
delta equals the current level minus the previous year stored level. -/
theorem C6_working_capital_recursion (base : BaseVars) (proy : Sheet) (proys : ProjectData)
    (t : ℕ) (ht : 1 ≤ t) :
    (yearRow base proy proys t).capitalDeTrabajo
        = base.Dias_CxC / 365 * (yearRow base proy proys t).ingresosTotales
          + base.Dias_Inv / 365 * (yearRow base proy proys t).totalCostoVenta
          - base.Dias_CxP / 365 * (yearRow base proy proys t).totalCostoVenta
    ∧ (t = 1 →
        (yearRow base proy proys t).deltaCTN = (yearRow base proy proys t).capitalDeTrabajo)
    ∧ (2 ≤ t →
        (yearRow base proy proys t).deltaCTN
          = (yearRow base proy proys t).capitalDeTrabajo
            - (yearRow base proy proys (t - 1)).capitalDeTrabajo) := by
  match t, ht with
  | 1, _ =>
    refine ⟨rfl, fun _ => ?_, fun h2 => absurd h2 (by norm_num)⟩
    exact sub_zero _
  | n + 2, _ =>
    exact ⟨rfl, fun h1 => absurd h1 (by omega), fun _ => rfl⟩

/-- C6 witness: the recursion evaluated at the second projected year of a
concrete run. -/
theorem C6_witness :
    (yearRow cBaseC2 gridB1 proysZero 2).deltaCTN
      = (yearRow cBaseC2 gridB1 proysZero 2).capitalDeTrabajo
        - (yearRow cBaseC2 gridB1 proysZero 1).capitalDeTrabajo :=
  (C6_working_capital_recursion cBaseC2 gridB1 proysZero 2 (by norm_num)).2.2 (by norm_num)

/-- C7: each of the three revenue streams chains on its own previous level —
the base-year level for the first forecast year, the stored prior-year level
afterwards — growing by that year stream growth rate; and cost of sales is
the sum over the three streams of the current level times that year cost
ratio. -/
theorem C7_revenue_stream_recursion (base : BaseVars) (proy : Sheet) (proys : ProjectData)
    (t : ℕ) (ht : 1 ≤ t) :
    (t = 1 →
        (yearRow base proy proys t).Ingresos_B1
          = clean_and_convert (cellAt proy 1 0) false
            * (1 + clean_and_convert (cellAt proy 2 t) true)
      ∧ (yearRow base proy proys t).Ingresos_B2
          = clean_and_convert (cellAt proy 5 0) false
            * (1 + clean_and_convert (cellAt proy 6 t) true)
      ∧ (yearRow base proy proys t).Ingresos_G
          = clean_and_convert (cellAt proy 9 0) false
            * (1 + clean_and_convert (cellAt proy 10 t) true))
    ∧ (2 ≤ t →
        (yearRow base proy proys t).Ingresos_B1
          = (yearRow base proy proys (t - 1)).Ingresos_B1
            * (1 + clean_and_convert (cellAt proy 2 t) true)
      ∧ (yearRow base proy proys t).Ingresos_B2
          = (yearRow base proy proys (t - 1)).Ingresos_B2
            * (1 + clean_and_convert (cellAt proy 6 t) true)
      ∧ (yearRow base proy proys t).Ingresos_G
          = (yearRow base proy proys (t - 1)).Ingresos_G
            * (1 + clean_and_convert (cellAt proy 10 t) true))
    ∧ (yearRow base proy proys t).totalCostoVenta
        = (yearRow base proy proys t).Ingresos_B1 * clean_and_convert (cellAt proy 3 t) true
          + (yearRow base proy proys t).Ingresos_B2 * clean_and_convert (cellAt proy 7 t) true
          + (yearRow base proy proys t).Ingresos_G * clean_and_convert (cellAt proy 11 t) true := by
  match t, ht with
  | 1, _ =>
    exact ⟨fun _ => ⟨rfl, rfl, rfl⟩, fun h2 => absurd h2 (by norm_num), rfl⟩
  | n + 2, _ =>
    exact ⟨fun h1 => absurd h1 (by omega), fun _ => ⟨rfl, rfl, rfl⟩, rfl⟩

/-- C7 witness: the stream recursion evaluated at the second projected year
of a concrete run. -/
theorem C7_witness :
    (yearRow cBaseC2 gridB1 proysZero 2).Ingresos_B1
      = (yearRow cBaseC2 gridB1 proysZero 1).Ingresos_B1
        * (1 + clean_and_convert (cellAt gridB1 2 2) true) :=
  ((C7_revenue_stream_recursion cBaseC2 gridB1 proysZero 2 (by norm_num)).2.1 (by norm_num)).1

/-- C8: the fixed operating expenses entering EBIT equal the base-year
fixed-expense figure times 1.03 to the power t, the 3 percent annual
inflation rate being a hard-coded constant: the same value results whatever
drivers or project sheets the workbook supplies. -/
theorem C8_fixed_expense_inflation (base : BaseVars) (proy proy2 : Sheet)
    (proys proys2 : ProjectData) (t : ℕ) :
    (yearRow base proy proys t).gastosFijos
        = base.Gastos_Fijos_Operativos_2025 * (1 + 3 / 100) ^ t
    ∧ (yearRow base proy proys t).gastosFijos = (yearRow base proy2 proys2 t).gastosFijos := by
  match t with
  | 0 => exact ⟨rfl, rfl⟩
  | 1 => exact ⟨rfl, rfl⟩
  | n + 2 => exact ⟨rfl, rfl⟩

/-- C2: every successful run satisfies the valuation identities exactly
(hence within any floating-point tolerance): terminal value is the last
projected FCF times one plus growth, divided by WACC minus growth; its
present value is the terminal value times the year-5 discount factor; the
present value of projected flows is the sum of the five discounted FCF
figures; and enterprise value is that sum plus the discounted terminal
value. -/
theorem C2_valuation_identities (base : BaseVars) (proy : Sheet) (proys : ProjectData)
    (v : Valoracion) (h : run_model base proy proys = some v) :
    v.Valor_Terminal
        = (yearRow base proy proys 5).FCF * (1 + base.G_Perpetuidad)
          / (base.WACC - base.G_Perpetuidad)
    ∧ v.VP_Valor_Terminal = v.Valor_Terminal * vpFactor base.WACC 5
    ∧ v.VE_FCF_Proyectados
        = ((List.range 5).map
            (fun i => (yearRow base proy proys (i + 1)).FCF * vpFactor base.WACC (i + 1))).sum
    ∧ v.Valor_Empresa_VE = v.VE_FCF_Proyectados + v.VP_Valor_Terminal := by
  unfold run_model at h
  split_ifs at h
  injection h with h
  subst h
  exact ⟨rfl, rfl, rfl, rfl⟩

/-- C2 witness: the identities evaluated on a successful concrete run. -/
theorem C2_witness :
    (valoracion_result cBaseC2 gridB1 proysZero).Valor_Empresa_VE
      = (valoracion_result cBaseC2 gridB1 proysZero).VE_FCF_Proyectados
        + (valoracion_result cBaseC2 gridB1 proysZero).VP_Valor_Terminal :=
  (C2_valuation_identities cBaseC2 gridB1 proysZero _
    (run_model_some cBaseC2 gridB1 proysZero (by norm_num [cBaseC2]))).2.2.2

/-- C1 counterexample: with WACC 5 percent strictly below growth 10 percent
the valuation does not fail and does not report any error: it evaluates the
Gordon division and returns the dictionary, whose terminal value is the
division result -2200. -/
theorem C1_counterexample :
    cBaseC1.WACC < cBaseC1.G_Perpetuidad
    ∧ Option.map Valoracion.Valor_Terminal (run_model cBaseC1 gridB1 proysZero)
        = some (-2200) := by
  refine ⟨by norm_num [cBaseC1], ?_⟩
  rw [run_model_some cBaseC1 gridB1 proysZero (by norm_num [cBaseC1])]
  show some ((valoracion_result cBaseC1 gridB1 proysZero).Valor_Terminal) = _
  have hv : (valoracion_result cBaseC1 gridB1 proysZero).Valor_Terminal
      = (yearRow cBaseC1 gridB1 proysZero 5).FCF * (1 + cBaseC1.G_Perpetuidad)
        / (cBaseC1.WACC - cBaseC1.G_Perpetuidad) := rfl
  rw [hv, yearRow_gridB1 cBaseC1 rfl rfl rfl rfl rfl 5]
  norm_num [rowB1, cBaseC1]

/-- C1 (amended): `_calculate_valuation` performs no precondition check on
the rates and never reports a typed non-convergent-terminal-value error:
for every WACC other than -1 (where the pure-Python discount-factor
division of line 252 raises) the run evaluates the Gordon division and
returns the summary dictionary whose terminal value is the stored division
result — in particular for every WACC strictly below growth; even at WACC
exactly equal to growth the numpy float64 division by zero does not raise,
it yields a non-finite value, still returned in the dictionary (that
non-finite value itself lies outside the rational embedding). -/
theorem C1_amended_no_precondition (base : BaseVars) (proy : Sheet) (proys : ProjectData)
    (h1 : 1 + base.WACC ≠ 0) :
    run_model base proy proys = some (valoracion_result base proy proys)
    ∧ (valoracion_result base proy proys).Valor_Terminal
        = (yearRow base proy proys 5).FCF * (1 + base.G_Perpetuidad)
          / (base.WACC - base.G_Perpetuidad) :=
  ⟨run_model_some base proy proys h1, rfl⟩

/-- C1 witness: the amended statement evaluated at a bundle with WACC below
growth — the run returns the division result rather than failing. -/
theorem C1_witness :
    run_model cBaseC1 gridB1 proysZero = some (valoracion_result cBaseC1 gridB1 proysZero) :=
  (C1_amended_no_precondition cBaseC1 gridB1 proysZero (by norm_num [cBaseC1])).1

/-- C9 (amended): re-running with only WACC changed leaves every projected
row — and in particular every undiscounted FCF figure — unchanged, the
projection never reading WACC; the discounted quantities are recomputed,
and whenever the terminal-year FCF is positive, growth exceeds -1 and both
rates exceed growth, raising WACC strictly lowers the present value of the
terminal value, so it does change; but the change of the two summary values
is not unconditional (see the counterexample with all-zero cash flows). -/
theorem C9_wacc_sensitivity (base : BaseVars) (proy : Sheet) (proys : ProjectData) (w2 : ℚ)
    (hg : -1 < base.G_Perpetuidad) (h1 : base.G_Perpetuidad < base.WACC)
    (h12 : base.WACC < w2) (hf : 0 < (yearRow base proy proys 5).FCF) :
    (∀ t, (yearRow { base with WACC := w2 } proy proys t).FCF
        = (yearRow base proy proys t).FCF)
    ∧ run_model base proy proys = some (valoracion_result base proy proys)
    ∧ run_model { base with WACC := w2 } proy proys
        = some (valoracion_result { base with WACC := w2 } proy proys)
    ∧ (valoracion_result { base with WACC := w2 } proy proys).VP_Valor_Terminal
        < (valoracion_result base proy proys).VP_Valor_Terminal := by
  have hw1 : (0 : ℚ) < 1 + base.WACC := by linarith
  have hw2 : (0 : ℚ) < 1 + w2 := by linarith
  have hgp : (0 : ℚ) < 1 + base.G_Perpetuidad := by linarith
  refine ⟨fun t => by rw [yearRow_wacc],
    run_model_some base proy proys (ne_of_gt hw1),
    run_model_some _ proy proys (ne_of_gt hw2), ?_⟩
  have hVP : ∀ b : BaseVars, (valoracion_result b proy proys).VP_Valor_Terminal
      = (yearRow b proy proys 5).FCF * (1 + b.G_Perpetuidad) / (b.WACC - b.G_Perpetuidad)
        * vpFactor b.WACC 5 := fun b => rfl
  rw [hVP, hVP, yearRow_wacc]
  show (yearRow base proy proys 5).FCF * (1 + base.G_Perpetuidad)
      / (w2 - base.G_Perpetuidad) * vpFactor w2 5
    < (yearRow base proy proys 5).FCF * (1 + base.G_Perpetuidad)
      / (base.WACC - base.G_Perpetuidad) * vpFactor base.WACC 5
  have hK : (0 : ℚ) < (yearRow base proy proys 5).FCF * (1 + base.G_Perpetuidad) :=
    mul_pos hf hgp
  simp only [vpFactor]
  simp only [div_mul_div_comm, mul_one]
  apply div_lt_div_of_pos_left hK
  · exact mul_pos (by linarith) (pow_pos hw1 5)
  · calc (base.WACC - base.G_Perpetuidad) * (1 + base.WACC) ^ 5
        < (w2 - base.G_Perpetuidad) * (1 + base.WACC) ^ 5 := by
          exact mul_lt_mul_of_pos_right (by linarith) (pow_pos hw1 5)
      _ ≤ (w2 - base.G_Perpetuidad) * (1 + w2) ^ 5 := by
          exact mul_le_mul_of_nonneg_left
            (pow_le_pow_left₀ (le_of_lt hw1) (by linarith) 5) (by linarith)

/-- C9 witness: the amended statement evaluated on a concrete run with
constant FCF 100, WACC raised from 20 to 30 percent. -/
theorem C9_witness :
    (valoracion_result { cBaseC2 with WACC := 3 / 10 } gridB1 proysZero).VP_Valor_Terminal
      < (valoracion_result cBaseC2 gridB1 proysZero).VP_Valor_Terminal :=
  (C9_wacc_sensitivity cBaseC2 gridB1 proysZero (3 / 10)
    (by norm_num [cBaseC2]) (by norm_num [cBaseC2]) (by norm_num [cBaseC2])
    (by rw [yearRow_gridB1 cBaseC2 rfl rfl rfl rfl rfl 5]; norm_num [rowB1])).2.2.2

/-- C9 counterexample: on a bundle whose cash flows are all zero, changing
WACC from 10 to 20 percent leaves the present value of the terminal value
and the enterprise value both unchanged (both runs succeed and return zero
for each), so the claimed unconditional change does not hold. -/
theorem C9_counterexample :
    zBase1.WACC ≠ ({ zBase1 with WACC := 1 / 5 }).WACC
    ∧ Option.map Valoracion.VP_Valor_Terminal (run_model zBase1 gridBlank proysZero)
        = Option.map Valoracion.VP_Valor_Terminal
            (run_model { zBase1 with WACC := 1 / 5 } gridBlank proysZero)
    ∧ Option.map Valoracion.Valor_Empresa_VE (run_model zBase1 gridBlank proysZero)
        = Option.map Valoracion.Valor_Empresa_VE
            (run_model { zBase1 with WACC := 1 / 5 } gridBlank proysZero) := by
  have e1 := run_model_some zBase1 gridBlank proysZero (by norm_num [zBase1])
  have e2 := run_model_some { zBase1 with WACC := 1 / 5 } gridBlank proysZero
    (by norm_num [zBase1])
  refine ⟨by norm_num [zBase1], ?_, ?_⟩
  all_goals rw [e1, e2]
  all_goals simp [valoracion_result, vp_fcf_proyectados, vpFCF, yearRow_wacc,
    yearRow_gridBlank zBase1 rfl, rowZero]

/-- C3 (amended): when the required sheet, or a required labelled row such
as `wacc`, is absent, the loader catches the error and returns `None` — it
never crashes — but the value handed to callers is a bare `None`: the only
identification of the failing section or label is a console print, so the
returned failure is untyped and carries no missing-schema detail. -/
theorem C3_loader_returns_none (wb : Workbook) :
    (lookupSheet wb "Hipotesis_Base" = none → load_data wb = none)
    ∧ (∀ hip, lookupSheet wb "Hipotesis_Base" = some hip →
        findLabelRow hip "wacc" = none → load_data wb = none) := by
  constructor
  · intro h
    unfold load_data
    rw [h]
  · intro hip hs hl
    have hw : get_base_value hip "wacc" true = none := by
      unfold get_base_value
      rw [hl]
      rfl
    unfold load_data
    rw [hs]
    rcases e1 : get_base_value hip "ingresos_totales_2025" false with _ | v1 <;>
      rcases e2 : get_base_value hip "gastos_fijos_operativos_2025" false with _ | v2 <;>
        rcases e3 : get_base_value hip "dias_cxc" false with _ | v3 <;>
          rcases e4 : get_base_value hip "dias_inv" false with _ | v4 <;>
            rcases e5 : get_base_value hip "dias_cxp" false with _ | v5 <;>
              simp [hw, e1, e2, e3, e4, e5]

/-- C3 witness: the amended statement evaluated on a workbook with no
sheets. -/
theorem C3_witness : load_data wbNoSheet = none :=
  (C3_loader_returns_none wbNoSheet).1 rfl

/-- C3 counterexample: a workbook missing the whole Hipotesis_Base sheet
and a workbook whose sheet lacks every required label produce the very same
result, a bare `None`: the returned failure cannot be identifying which
named section or label failed, and it is not a typed missing-schema
error. -/
theorem C3_counterexample :
    load_data wbNoSheet = none
    ∧ load_data wbNoLabel = none
    ∧ load_data wbNoSheet = load_data wbNoLabel := by
  refine ⟨rfl, ?_, ?_⟩ <;> rfl
